import Mathlib

/-!
# Verification of the LBW decision-review client core

This file gives a shallow embedding, in Lean 4, of the core logic of the
LBW-PROJECT client (`src/services/settingsService.ts`, together with the
types in `src/types/lbw.ts` and the durable-store adapter in
`src/services/analysisDbService.ts`), and proves properties of the
embedded definitions.

Modelling conventions:
* JavaScript numbers are IEEE-754 doubles.  Wherever the source only ever
  manipulates integers we model the arithmetic exactly over `ℤ`/`ℕ`,
  including the double-precision rounding step that JavaScript applies to
  integer-valued products that exceed `2^53` (see `fl53` below): rounding
  an integer to 53 significant bits is itself an exact integer operation.
* Fractional values (the pseudo-random draws in `[0,1)` and everything
  derived from them) are modelled as rationals `ℚ`.  All branch decisions
  taken on such values in the source compare a draw `state/(2^31-1)`
  (denominator the prime `2^31-1`) against short decimal literals; the
  distance from any such draw to any such literal is at least
  `1/(20·(2^31-1)) ≈ 2.3e-11`, which exceeds the `≈1e-16` error of the
  double operations by five orders of magnitude, so the rational
  idealisation takes exactly the branches the double code takes.
* Effects are passed explicitly: the pseudo-random generator is threaded
  state-passing style, `Date.now()`/`new Date()` become an explicit
  `now : ℤ` argument, and fallible operations return `Except`/`Option`.
-/

/-! ## DeterministicSequence (`SeededRandom`, settingsService.ts lines 315-327)

The source:
```ts
next(): number {
  this.seed = (this.seed * 1103515245 + 12345) & 0x7fffffff;
  return this.seed / 0x7fffffff;
}
```
`this.seed * 1103515245 + 12345` is evaluated in double precision: the
product of two exact integers is rounded to the nearest representable
double (53 significant bits, ties to even), and `+ 12345` rounds again.
Both intermediate values are integers, so the whole update is an exact
integer function, modelled by `fl53` and `stepJS` below.  `& 0x7fffffff`
is `ToInt32` followed by clearing the sign bit, i.e. the low 31 bits of
the integer, i.e. reduction mod `2^31` (Euclidean, hence non-negative).
-/

/-- Fuel-driven binary logarithm, structurally recursive so that concrete
instances reduce inside `decide`/`rfl` proofs (`Nat.log2` itself is
defined by well-founded recursion, which the evaluator cannot unfold). -/
def log2fuel : ℕ → ℕ → ℕ
  | 0, _ => 0
  | f + 1, n => if n < 2 then 0 else log2fuel f (n / 2) + 1

/-- `⌊log₂ m⌋` (0 for `m ≤ 1`), computable by reduction. -/
def natLog2 (m : ℕ) : ℕ := log2fuel m m

lemma log2fuel_eq_log2 : ∀ (f n : ℕ), n ≤ f → log2fuel f n = Nat.log2 n := by
  intro f
  induction f with
  | zero =>
    intro n h
    have hn : n = 0 := by omega
    subst hn
    unfold Nat.log2
    rw [if_neg (by omega)]
    rfl
  | succ f ih =>
    intro n h
    rw [log2fuel]
    by_cases h2 : n < 2
    · rw [if_pos h2]
      unfold Nat.log2
      rw [if_neg (by omega)]
    · rw [if_neg h2]
      have hrec : n / 2 ≤ f := by omega
      rw [ih _ hrec]
      conv_rhs => unfold Nat.log2
      rw [if_pos (by omega)]

lemma natLog2_eq (m : ℕ) : natLog2 m = Nat.log2 m :=
  log2fuel_eq_log2 m m (Nat.le_refl m)

/-- Round a natural number to 53 significant bits, round-to-nearest with
ties to even: the exact value of the IEEE-754 double nearest to `m`
(for `m < 2^1024`, far above every magnitude reached here). -/
def fl53nat (m : ℕ) : ℕ :=
  -- `m` has `natLog2 m + 1` bits; the low `natLog2 m - 52` bits are
  -- dropped, rounding the quotient to nearest, ties to the even quotient.
  if m < 2 ^ 53 then m
  else if 2 ^ (natLog2 m - 52 - 1) < m % 2 ^ (natLog2 m - 52) ∨
      (m % 2 ^ (natLog2 m - 52) = 2 ^ (natLog2 m - 52 - 1) ∧
        m / 2 ^ (natLog2 m - 52) % 2 = 1) then
    (m / 2 ^ (natLog2 m - 52) + 1) * 2 ^ (natLog2 m - 52)
  else m / 2 ^ (natLog2 m - 52) * 2 ^ (natLog2 m - 52)

/-- Round an integer to the nearest IEEE-754 double (exact integer result;
double rounding is symmetric about zero). -/
def fl53 (n : ℤ) : ℤ :=
  if n < 0 then -(fl53nat n.natAbs : ℤ) else (fl53nat n.natAbs : ℤ)

/-- One update of the generator state, with JavaScript double semantics:
`ToInt32(fl(fl(s * 1103515245) + 12345)) & 0x7fffffff`. -/
def stepJS (s : ℤ) : ℤ :=
  fl53 (fl53 (s * 1103515245) + 12345) % (2 ^ 31 : ℤ)

/-- The stateful seeded generator (class `SeededRandom`). -/
structure SeededRandom where
  seed : ℤ
deriving DecidableEq, Repr

/-- `next()`: advance the state and return `state / 0x7fffffff`. -/
def SeededRandom.next (r : SeededRandom) : ℚ × SeededRandom :=
  let s := stepJS r.seed
  ((s : ℚ) / ((2 : ℚ) ^ 31 - 1), ⟨s⟩)

/-- State after `n` calls to `next()` starting from `seed`. -/
def nthState (seed : ℤ) : ℕ → ℤ
  | 0 => seed
  | n + 1 => stepJS (nthState seed n)

/-- Value returned by the `(n+1)`-st call to `next()` (0-indexed). -/
def nthDraw (seed : ℤ) (n : ℕ) : ℚ :=
  ((nthState seed (n + 1) : ℤ) : ℚ) / ((2 : ℚ) ^ 31 - 1)

/-! ### Arithmetic facts about `fl53nat` / `fl53` / `stepJS` -/

lemma fl53nat_of_lt (m : ℕ) (h : m < 2 ^ 53) : fl53nat m = m := by
  unfold fl53nat
  rw [if_pos h]

lemma le_log2_of_pow_le {m k : ℕ} (hm : 2 ^ k ≤ m) : k ≤ m.log2 := by
  have hpos : 0 < 2 ^ k := Nat.pos_pow_of_pos _ (by norm_num)
  have hm0 : m ≠ 0 := by omega
  by_contra hlt
  have : m.log2 < k := Nat.lt_of_not_le hlt
  have := (Nat.log2_lt hm0).mp this
  omega

lemma log2_lt_of_lt_pow {m k : ℕ} (hm : m ≠ 0) (h : m < 2 ^ k) : m.log2 < k :=
  (Nat.log2_lt hm).mpr h

lemma fl53nat_even (m : ℕ) (h : 2 ^ 53 ≤ m) : 2 ∣ fl53nat m := by
  have hk : 1 ≤ m.log2 - 52 := by
    have h53 : 53 ≤ m.log2 := le_log2_of_pow_le h
    omega
  unfold fl53nat
  rw [natLog2_eq]
  rw [if_neg (by omega)]
  have hdvd : (2 : ℕ) ∣ 2 ^ (m.log2 - 52) := dvd_pow_self 2 (by omega)
  split <;> exact Dvd.dvd.mul_left hdvd _

lemma fl53_eq_self (n : ℤ) (h : n.natAbs < 2 ^ 53) : fl53 n = n := by
  unfold fl53
  rw [fl53nat_of_lt _ h]
  split <;> omega

lemma fl53_even (n : ℤ) (h : 2 ^ 53 ≤ n.natAbs) : (2 : ℤ) ∣ fl53 n := by
  obtain ⟨c, hc⟩ := fl53nat_even n.natAbs h
  unfold fl53
  split
  · exact ⟨-(c : ℤ), by push_cast [hc]; ring⟩
  · exact ⟨(c : ℤ), by push_cast [hc]; ring⟩

lemma fl53nat_ge (m : ℕ) (h : 2 ^ 53 ≤ m) (hub : m < 2 ^ 62) :
    2 ^ 53 ≤ fl53nat m := by
  have hm0 : m ≠ 0 := by positivity
  have h53 : 53 ≤ m.log2 := le_log2_of_pow_le h
  have h62 : m.log2 < 62 := log2_lt_of_lt_pow hm0 hub
  set k := m.log2 - 52 with hk
  have hk53 : k ≤ 53 := by omega
  have hq : 2 ^ (53 - k) ≤ m / 2 ^ k := by
    have : 2 ^ (53 - k) * 2 ^ k ≤ m := by
      rw [← pow_add]
      have : 53 - k + k = 53 := by omega
      rw [this]; exact h
    exact (Nat.le_div_iff_mul_le (Nat.pos_pow_of_pos _ (by norm_num))).mpr this
  have hbase : 2 ^ 53 ≤ (m / 2 ^ k) * 2 ^ k := by
    calc 2 ^ 53 = 2 ^ (53 - k) * 2 ^ k := by
          rw [← pow_add]; congr 1; omega
      _ ≤ (m / 2 ^ k) * 2 ^ k := Nat.mul_le_mul_right _ hq
  unfold fl53nat
  rw [natLog2_eq]
  rw [if_neg (by omega), ← hk]
  split
  · calc 2 ^ 53 ≤ (m / 2 ^ k) * 2 ^ k := hbase
      _ ≤ (m / 2 ^ k + 1) * 2 ^ k := Nat.mul_le_mul_right _ (Nat.le_succ _)
  · exact hbase

lemma fl53_natAbs_ge (n : ℤ) (h : 2 ^ 53 ≤ n.natAbs) (hub : n.natAbs < 2 ^ 62) :
    2 ^ 53 ≤ (fl53 n).natAbs := by
  have := fl53nat_ge n.natAbs h hub
  unfold fl53
  split <;> simpa using this

lemma stepJS_nonneg (s : ℤ) : 0 ≤ stepJS s :=
  Int.emod_nonneg _ (by norm_num)

lemma stepJS_lt (s : ℤ) : stepJS s < 2 ^ 31 :=
  Int.emod_lt_of_pos _ (by norm_num)

/-- The state update coincides with the exact recurrence
`(s * 1103515245 + 12345) mod 2^31` whenever the product stays below
`2^53`, i.e. for states `0 ≤ s ≤ 8162278`: no double rounding occurs. -/
lemma stepJS_exact (s : ℤ) (h0 : 0 ≤ s) (h1 : s ≤ 8162278) :
    stepJS s = (s * 1103515245 + 12345) % (2 ^ 31 : ℤ) := by
  have hub : s * 1103515245 + 12345 < 2 ^ 53 := by
    have : s * 1103515245 ≤ 8162278 * 1103515245 := by
      exact mul_le_mul_of_nonneg_right h1 (by norm_num)
    omega
  have hp : (s * 1103515245).natAbs < 2 ^ 53 := by
    have h0p : 0 ≤ s * 1103515245 := by positivity
    omega
  unfold stepJS
  rw [fl53_eq_self _ hp]
  have hy : (s * 1103515245 + 12345).natAbs < 2 ^ 53 := by
    have h0p : 0 ≤ s * 1103515245 := by positivity
    omega
  rw [fl53_eq_self _ hy]

/-- The state update can never produce the top value `2^31 - 1` (for any
state in the signed-32-bit range, which covers every initial seed and
every evolved state).  Consequently `next()` never returns `1`: its
values lie in the half-open interval `[0,1)`.

The proof splits on whether the double rounding is active.  If the final
addition rounds, the result is even while `2^31 - 1` demands an odd
value.  If nothing rounds, exact arithmetic would require
`s ≡ 230538014 (mod 2^31)`, impossible for `|s| ≤ 8162278` (the exact
regime).  If the product rounds but the sum is exact, the rounded
product is an even value of magnitude at least `2^53` whose sum with
`12345` has magnitude below `2^53`: such a sum lies in `[-2^53+1,
-2^53+12345]`, and since `2^31 ∣ 2^53` its residue mod `2^31` is at most
`12345`. -/
lemma stepJS_ne_top (s : ℤ) (hlb : -(2 ^ 31) ≤ s) (hub : s < 2 ^ 31) :
    stepJS s ≠ 2 ^ 31 - 1 := by
  intro hcontra
  unfold stepJS at hcontra
  generalize hgx : fl53 (s * 1103515245) = x at hcontra
  generalize hgy : fl53 (x + 12345) = y at hcontra
  -- hcontra : y % 2^31 = 2^31 - 1, hence y is odd
  have hyodd : y % 2 = 1 := by
    have h2dvd : (2 : ℤ) ∣ 2 ^ 31 := dvd_pow_self 2 (by norm_num)
    have hmm := Int.emod_emod_of_dvd y h2dvd
    rw [hcontra] at hmm
    norm_num at hmm
    omega
  by_cases hA : 2 ^ 53 ≤ (x + 12345).natAbs
  · -- the final addition rounds: y is even, contradiction
    have heven := fl53_even (x + 12345) hA
    rw [hgy] at heven
    omega
  · -- the final addition is exact
    have hyy : y = x + 12345 := by
      rw [← hgy, fl53_eq_self _ (by omega)]
    by_cases hB : 2 ^ 53 ≤ (s * 1103515245).natAbs
    · -- the product rounds: x is even with |x| ≥ 2^53
      have hxeven : (2 : ℤ) ∣ x := by
        have := fl53_even (s * 1103515245) hB
        rwa [hgx] at this
      have hpabs : (s * 1103515245).natAbs = s.natAbs * 1103515245 := by
        simp [Int.natAbs_mul]
      have hpub : (s * 1103515245).natAbs < 2 ^ 62 := by
        have hs : s.natAbs ≤ 2 ^ 31 := by omega
        calc (s * 1103515245).natAbs = s.natAbs * 1103515245 := hpabs
          _ ≤ 2 ^ 31 * 1103515245 := Nat.mul_le_mul_right _ hs
          _ < 2 ^ 62 := by norm_num
      have hxge : 2 ^ 53 ≤ x.natAbs := by
        have := fl53_natAbs_ge (s * 1103515245) hB hpub
        rwa [hgx] at this
      -- |x + 12345| < 2^53 forces x ≤ -2^53, and then x ≥ -2^53 - 12344
      have hxneg : x ≤ -(2 ^ 53) := by omega
      have hxlb : -(2 ^ 53) - 12344 ≤ x := by omega
      -- y + 2^53 ∈ [1, 12345] and 2^31 ∣ 2^53
      have hsplit : y % 2 ^ 31 = (y + 2 ^ 31 * 2 ^ 22) % 2 ^ 31 := by
        rw [Int.add_mul_emod_self_left]
      have hpow : (2 : ℤ) ^ 31 * 2 ^ 22 = 2 ^ 53 := by norm_num
      have hsmall : (y + 2 ^ 53) % 2 ^ 31 = y + 2 ^ 53 :=
        Int.emod_eq_of_lt (by omega) (by omega)
      rw [hsplit, hpow, hsmall] at hcontra
      omega
    · -- nothing rounds: exact arithmetic, solve the congruence
      have hxp : x = s * 1103515245 := by
        rw [← hgx, fl53_eq_self _ (by omega)]
      -- |s| ≤ 8162278 in this regime
      have hsb : s.natAbs ≤ 8162278 := by
        by_contra hbig
        have h1 : 8162279 ≤ s.natAbs := by omega
        have h2 : (8162279 : ℕ) * 1103515245 ≤ s.natAbs * 1103515245 :=
          Nat.mul_le_mul_right _ h1
        have hpabs : (s * 1103515245).natAbs = s.natAbs * 1103515245 := by
          simp [Int.natAbs_mul]
        have : (2 : ℕ) ^ 53 ≤ (s * 1103515245).natAbs := by
          rw [hpabs]
          calc (2 : ℕ) ^ 53 ≤ 8162279 * 1103515245 := by norm_num
            _ ≤ s.natAbs * 1103515245 := h2
        omega
      -- 2^31 ∣ s*1103515245 + 12346
      have hc : (s * 1103515245 + 12345) % (2 ^ 31 : ℤ) = 2 ^ 31 - 1 := by
        rw [← hxp, ← hyy]
        exact hcontra
      clear hgx hgy hcontra hyy hxp hyodd hA hB
      have hdvd1 : (2 ^ 31 : ℤ) ∣ (s * 1103515245 + 12346) := by
        have h0 : (s * 1103515245 + 12345 + 1) % (2 ^ 31 : ℤ) = 0 := by
          rw [Int.add_emod, hc]
          norm_num
        have h1 : (2 ^ 31 : ℤ) ∣ (s * 1103515245 + 12345 + 1) :=
          Int.dvd_of_emod_eq_zero h0
        have h2 : s * 1103515245 + 12345 + 1 = s * 1103515245 + 12346 := by ring
        rwa [h2] at h1
      -- 2^31 ∣ 230538014*1103515245 + 12346  (numeric)
      have hdvd2 : (2 ^ 31 : ℤ) ∣ ((230538014 : ℤ) * 1103515245 + 12346) :=
        ⟨118465262, by norm_num⟩
      -- hence 2^31 ∣ (s - 230538014) * 1103515245
      have hdvd3 : (2 ^ 31 : ℤ) ∣ (s - 230538014) * 1103515245 := by
        have heq : (s - 230538014) * 1103515245 =
            (s * 1103515245 + 12346) - (230538014 * 1103515245 + 12346) := by ring
        rw [heq]
        exact dvd_sub hdvd1 hdvd2
      -- multiply by the inverse 1857678181 of 1103515245 mod 2^31
      have hdvd4 : (2 ^ 31 : ℤ) ∣ (s - 230538014) := by
        obtain ⟨t, ht⟩ := hdvd3
        refine ⟨t * 1857678181 - 954594553 * (s - 230538014), ?_⟩
        have hinv : (1103515245 : ℤ) * 1857678181 = 1 + 2 ^ 31 * 954594553 := by
          norm_num
        have hmul : (s - 230538014) * 1103515245 * 1857678181 =
            2 ^ 31 * (t * 1857678181) := by rw [ht]; ring
        calc s - 230538014
            = (s - 230538014) * (1103515245 * 1857678181)
              - 2 ^ 31 * (954594553 * (s - 230538014)) := by rw [hinv]; ring
          _ = 2 ^ 31 * (t * 1857678181)
              - 2 ^ 31 * (954594553 * (s - 230538014)) := by
              rw [← mul_assoc, hmul]
          _ = 2 ^ 31 * (t * 1857678181 - 954594553 * (s - 230538014)) := by ring
      -- but 0 < |s - 230538014| < 2^31: contradiction
      obtain ⟨u, hu⟩ := hdvd4
      clear hdvd1 hdvd2 hdvd3 hc
      omega

lemma next_val (r : SeededRandom) :
    (r.next).1 = ((stepJS r.seed : ℤ) : ℚ) / ((2 : ℚ) ^ 31 - 1) := rfl

lemma next_seed (r : SeededRandom) : (r.next).2 = ⟨stepJS r.seed⟩ := rfl

/-- The interval `[0,1)` bound for a rational of the form `s/(2^31-1)`
with `0 ≤ s ≤ 2^31 - 2`. -/
lemma draw_mem_Ico {s : ℤ} (h0 : 0 ≤ s) (h1 : s ≤ 2 ^ 31 - 2) :
    0 ≤ ((s : ℚ) / ((2 : ℚ) ^ 31 - 1)) ∧ ((s : ℚ) / ((2 : ℚ) ^ 31 - 1)) < 1 := by
  constructor
  · apply div_nonneg
    · exact_mod_cast h0
    · norm_num
  · rw [div_lt_one (by norm_num)]
    calc ((s : ℤ) : ℚ) ≤ ((2 ^ 31 - 2 : ℤ) : ℚ) := by exact_mod_cast h1
      _ < (2 : ℚ) ^ 31 - 1 := by norm_num

/-- Every value returned by `next()` lies in `[0, 1)` (the state being in
the signed-32-bit range, which covers every initial seed and every
evolved state). -/
lemma next_mem_Ico (r : SeededRandom) (hlb : -(2 ^ 31) ≤ r.seed)
    (hub : r.seed < 2 ^ 31) :
    0 ≤ (r.next).1 ∧ (r.next).1 < 1 := by
  rw [next_val]
  have h0 := stepJS_nonneg r.seed
  have h1 := stepJS_lt r.seed
  have h2 := stepJS_ne_top r.seed hlb hub
  exact draw_mem_Ico h0 (by omega)

/-- Values returned by `next()` are always in `[0, 1]` (weak bounds valid
for any state whatsoever, used for the confidence bounds). -/
lemma next_mem_Icc (r : SeededRandom) : 0 ≤ (r.next).1 ∧ (r.next).1 ≤ 1 := by
  rw [next_val]
  have h0 := stepJS_nonneg r.seed
  have h1 := stepJS_lt r.seed
  constructor
  · apply div_nonneg
    · exact_mod_cast h0
    · norm_num
  · rw [div_le_one (by norm_num)]
    have : stepJS r.seed ≤ 2 ^ 31 - 1 := by omega
    calc ((stepJS r.seed : ℤ) : ℚ) ≤ ((2 ^ 31 - 1 : ℤ) : ℚ) := by exact_mod_cast this
      _ ≤ (2 : ℚ) ^ 31 - 1 := by norm_num

/-! ## Data model (`src/types/lbw.ts`) -/

inductive Decision where
  | OUT
  | NOT_OUT
deriving DecidableEq, Repr

inductive UmpiresCall where
  | UMPIRES_CALL
  | CLEAR
deriving DecidableEq, Repr

inductive BallType where
  | inswing | outswing | seam | offspin | legspin | straight
deriving DecidableEq, Repr

inductive PitchZone where
  | outside_leg | inline | outside_off
deriving DecidableEq, Repr

inductive ImpactZone where
  | inline | outside_off | outside_leg
deriving DecidableEq, Repr

inductive StumpHit where
  | leg | middle | off | missing_leg | missing_off | over
deriving DecidableEq, Repr

structure Position where
  x : ℚ
  y : ℚ
deriving DecidableEq, Repr

structure TrajectoryPoint where
  x : ℚ
  y : ℚ
  z : ℚ
deriving DecidableEq, Repr

structure LBWCriteria where
  pitchedInLine : Bool
  impactInLine : Bool
  legBeforeBat : Bool
  wouldHitWickets : Bool
deriving DecidableEq, Repr

structure BallMetrics where
  speed : ℚ
  releaseSpeed : ℚ
  impactSpeed : ℚ
  spinRate : Option ℚ
  swingDeviation : ℚ
  ballType : BallType
  angleOfEntry : ℚ
deriving DecidableEq, Repr

structure PitchAnalysis where
  zone : PitchZone
  distanceFromLegStump : ℚ
  distanceFromOffStump : ℚ
  bounceAngle : ℚ
deriving DecidableEq, Repr

structure ImpactAnalysis where
  zone : ImpactZone
  height : ℚ
  stumpHeight : ℚ
  isAboveStumps : Bool
  distanceFromLegStump : ℚ
  distanceFromOffStump : ℚ
  umpiresCall : UmpiresCall
deriving DecidableEq, Repr

structure WicketPrediction where
  wouldHit : Bool
  hitPercentage : ℚ
  stumpHit : StumpHit
  umpiresCall : UmpiresCall
  marginOfError : ℚ
deriving DecidableEq, Repr

inductive StepStatus where
  | pending | processing | completed | errored
deriving DecidableEq, Repr

/-- A pipeline step.  The `data` payload is only ever assigned the object
`{ processed: true, timestamp: Date.now() }` in the source, modelled as a
`Bool × ℤ` pair; `visualUrl` is declared but never assigned. -/
structure AnalysisStep where
  id : String
  name : String
  description : String
  status : StepStatus
  data : Option (Bool × ℤ) := none
  visualUrl : Option String := none
deriving DecidableEq, Repr

inductive KeyFrameType where
  | bounce | impact | wicket | release
deriving DecidableEq, Repr

structure KeyFrame where
  type : KeyFrameType
  frameNumber : ℚ
  timestamp : ℚ
  imageUrl : String
  label : String
  description : String
deriving DecidableEq, Repr

/-- `AnalysisResult` from `src/types/lbw.ts`.  `createdAt` (a JS `Date`)
is modelled as its millisecond timestamp. -/
structure AnalysisResult where
  id : String
  videoId : String
  videoName : String
  videoThumbnail : String
  videoUrl : Option String := none
  decision : Decision
  confidence : ℚ
  criteria : LBWCriteria
  steps : List AnalysisStep
  trajectory : List TrajectoryPoint
  impactPoint : Position
  bouncePoint : Position
  predictedWicketHit : Option Position
  createdAt : ℤ
  ballMetrics : Option BallMetrics := none
  pitchAnalysis : Option PitchAnalysis := none
  impactAnalysis : Option ImpactAnalysis := none
  wicketPrediction : Option WicketPrediction := none
  isUmpiresCall : Option Bool := none
  keyFrames : Option (List KeyFrame) := none
deriving DecidableEq, Repr

/-- `AnalysisSettings` (settingsService.ts lines 3-14). -/
structure AnalysisSettings where
  pitch_length : ℚ
  pitch_width : ℚ
  crease_distance : ℚ
  pitch_surface : String
  ball_type : String
  stump_height : ℚ
  stump_width : ℚ
  confidence_threshold : ℚ
  camera_angle : String
  camera_distance : String
deriving DecidableEq, Repr

/-- `DEFAULTS` (settingsService.ts lines 16-27); `MOCK_DEFAULTS` at lines
606-610 carries the same values. -/
def DEFAULTS : AnalysisSettings :=
  { pitch_length := 22, pitch_width := 10, crease_distance := 4,
    pitch_surface := "concrete", ball_type := "tennis",
    stump_height := 28, stump_width := 9, confidence_threshold := 50,
    camera_angle := "side", camera_distance := "medium" }

/-! ## Mock data generators (settingsService.ts lines 381-621) -/

/-- `SURFACE_BOUNCE[surface] ?? 1.0`: the record lookup (lines 386-391)
together with the `?? 1.0` fallback applied at every use site. -/
def SURFACE_BOUNCE (surface : String) : ℚ :=
  if surface = "concrete" then 13 / 10
  else if surface = "turf" then 1
  else if surface = "matting" then 9 / 10
  else if surface = "mud" then 3 / 5
  else 1

structure SpeedRange where
  pace : ℚ × ℚ
  spin : ℚ × ℚ
deriving DecidableEq, Repr

/-- `BALL_SPEED_RANGES[ball_type] ?? BALL_SPEED_RANGES.tennis`
(lines 394-398 with the fallback applied at the use site, line 442). -/
def BALL_SPEED_RANGES (t : String) : SpeedRange :=
  if t = "tennis" then ⟨(100, 120), (60, 80)⟩
  else if t = "tape" then ⟨(110, 130), (65, 85)⟩
  else if t = "leather" then ⟨(125, 155), (75, 100)⟩
  else ⟨(100, 120), (60, 80)⟩

/-- Model of `Math.sin(t * Math.PI)` for `t ∈ [0,1]` (used once, in the
`z` display coordinate of the final trajectory segment).  The exact sine
value is transcendental and no claim in this development depends on it;
it is modelled by the quadratic `4t(1-t)`, which agrees with `sin (π t)`
at the endpoints and the peak and keeps every definition computable. -/
def sinPi (t : ℚ) : ℚ := 4 * t * (1 - t)

/-- `generateTrajectory` (lines 400-436): two draws for `bounceX`,
`impactX`, then one lateral-jitter draw per sample: 11 samples for
release→bounce (`i = 0..10`), 10 for bounce→impact (`i = 1..10`), 5 for
impact→stumps (`i = 1..5`). -/
def generateTrajectory (rng : SeededRandom) (settings : AnalysisSettings) :
    List TrajectoryPoint × SeededRandom :=
  let (d1, rng) := rng.next
  let bounceX := 120 + d1 * 60
  let (d2, rng) := rng.next
  let impactX := 220 + d2 * 40
  let bounceFactor := SURFACE_BOUNCE settings.pitch_surface
  -- Scale trajectory length based on pitch length ratio (standard=22)
  let lengthScale := settings.pitch_length / 22
  let seg1 := (List.range 11).foldl
    (fun (acc : List TrajectoryPoint × SeededRandom) i =>
      let t : ℚ := (i : ℚ) / 10
      let (d, r) := acc.2.next
      (acc.1 ++ [{ x := t * bounceX * lengthScale,
                   y := 50 + (d - 1 / 2) * 10,
                   z := 200 - t * 180 + (t * t) * 20 }], r)) ([], rng)
  let seg2 := (List.range' 1 10).foldl
    (fun (acc : List TrajectoryPoint × SeededRandom) i =>
      let t : ℚ := (i : ℚ) / 10
      let (d, r) := acc.2.next
      (acc.1 ++ [{ x := (bounceX + t * (impactX - bounceX)) * lengthScale,
                   y := 50 + (d - 1 / 2) * 10,
                   z := (20 + t * 40 - (t * t) * 20) * bounceFactor }], r)) ([], seg1.2)
  let seg3 := (List.range' 1 5).foldl
    (fun (acc : List TrajectoryPoint × SeededRandom) i =>
      let t : ℚ := (i : ℚ) / 5
      let (d, r) := acc.2.next
      (acc.1 ++ [{ x := (impactX + t * (300 - impactX)) * lengthScale,
                   y := 50 + (d - 1 / 2) * 15,
                   z := (40 + sinPi t * 20) * bounceFactor }], r)) ([], seg2.2)
  (seg1.1 ++ seg2.1 ++ seg3.1, seg3.2)

/-- `generateBallMetrics` (lines 438-454).  Draw order: ball-behaviour
index, speed, releaseSpeed, impactSpeed, spinRate (spin deliveries only),
swingDeviation, angleOfEntry.  The list index `⌊d·6⌋` is in `0..5`
because every draw is `< 1` (`stepJS_ne_top`); the `getD` default is
unreachable. -/
def generateBallMetrics (rng : SeededRandom) (settings : AnalysisSettings) :
    BallMetrics × SeededRandom :=
  let ballTypes : List BallType :=
    [.inswing, .outswing, .seam, .offspin, .legspin, .straight]
  let (d1, rng) := rng.next
  let ballType := ballTypes.getD (⌊d1 * 6⌋).toNat .straight
  let isSpin := ballType = BallType.offspin ∨ ballType = BallType.legspin
  let range := BALL_SPEED_RANGES settings.ball_type
  let (minSpeed, maxSpeed) := if isSpin then range.spin else range.pace
  let (d2, rng) := rng.next
  let speed := minSpeed + d2 * (maxSpeed - minSpeed)
  let (d3, rng) := rng.next
  let releaseSpeed := minSpeed + 10 + d3 * (maxSpeed - minSpeed)
  let (d4, rng) := rng.next
  let impactSpeed := minSpeed - 5 + d4 * (maxSpeed - minSpeed - 5)
  let (spinRate, rng) :=
    if isSpin then
      let (d, r) := rng.next
      ((some (1500 + d * 1500) : Option ℚ), r)
    else (none, rng)
  let (d5, rng) := rng.next
  let swingDeviation := 2 + d5 * 8
  let (d6, rng) := rng.next
  let angleOfEntry := 5 + d6 * 15
  ({ speed, releaseSpeed, impactSpeed, spinRate, swingDeviation, ballType,
     angleOfEntry }, rng)

/-- `generatePitchAnalysis` (lines 456-466).  The zone draw only happens
when `pitchedInLine` holds; each distance draw happens exactly once (the
ternary picks the formula). -/
def generatePitchAnalysis (pitchedInLine : Bool) (rng : SeededRandom)
    (settings : AnalysisSettings) : PitchAnalysis × SeededRandom :=
  let (zone, rng) :=
    if pitchedInLine then
      let (d, r) := rng.next
      ((if d > 1 / 2 then PitchZone.inline else PitchZone.outside_off), r)
    else (PitchZone.outside_leg, rng)
  let bounceFactor := SURFACE_BOUNCE settings.pitch_surface
  let (d1, rng) := rng.next
  let distanceFromLegStump :=
    if zone = PitchZone.outside_leg then 5 + d1 * 30 else -(10 + d1 * 40)
  let (d2, rng) := rng.next
  let distanceFromOffStump :=
    if zone = PitchZone.outside_off then 5 + d2 * 20 else -(15 + d2 * 50)
  let (d3, rng) := rng.next
  let bounceAngle := (12 + d3 * 10) * bounceFactor
  ({ zone, distanceFromLegStump, distanceFromOffStump, bounceAngle }, rng)

/-- `generateImpactAnalysis` (lines 468-485).  Draws: zone (only when not
in line), height, leg-stump distance, the `isMarginally` draw (only when
the distance test fails and the zone is `inline`, by `||`/`&&`
short-circuiting), off-stump distance.  `2.54` is `254/100`. -/
def generateImpactAnalysis (impactInLine : Bool) (rng : SeededRandom)
    (settings : AnalysisSettings) : ImpactAnalysis × SeededRandom :=
  let (zone, rng) :=
    if impactInLine then (ImpactZone.inline, rng)
    else
      let (d, r) := rng.next
      ((if d > 1 / 2 then ImpactZone.outside_off else ImpactZone.outside_leg), r)
  let (d1, rng) := rng.next
  let height := 15 + d1 * 50
  let stumpHeight := settings.stump_height * (254 / 100)
  let (d2, rng) := rng.next
  let distFromLeg :=
    if zone = ImpactZone.outside_leg then 5 + d2 * 20 else -(5 + d2 * 30)
  let (isMarginally, rng) :=
    if |distFromLeg| < 5 then (true, rng)
    else if zone = ImpactZone.inline then
      let (d, r) := rng.next
      ((d > 7 / 10 : Bool), r)
    else (false, rng)
  let (d3, rng) := rng.next
  let distanceFromOffStump :=
    if zone = ImpactZone.outside_off then 5 + d3 * 15 else -(20 + d3 * 40)
  ({ zone, height, stumpHeight,
     isAboveStumps := height > stumpHeight,
     distanceFromLegStump := distFromLeg, distanceFromOffStump,
     umpiresCall := if isMarginally then .UMPIRES_CALL else .CLEAR }, rng)

/-- `generateWicketPrediction` (lines 487-503).  Draws: stump index,
hit percentage, margin of error.  The indices `⌊d·3⌋` and `3 + ⌊d·3⌋`
address the six-entry list exactly as the source does; the `getD`
defaults are unreachable since every draw is `< 1`. -/
def generateWicketPrediction (wouldHit : Bool) (rng : SeededRandom) :
    WicketPrediction × SeededRandom :=
  let stumps : List StumpHit :=
    [.leg, .middle, .off, .missing_leg, .missing_off, .over]
  let (d1, rng) := rng.next
  let stumpHit :=
    if wouldHit then stumps.getD (⌊d1 * 3⌋).toNat .off
    else stumps.getD (3 + ⌊d1 * 3⌋).toNat .over
  let (d2, rng) := rng.next
  let hitPercentage := if wouldHit then 25 + d2 * 75 else d2 * 25
  let isUmpiresCall := 25 ≤ hitPercentage ∧ hitPercentage < 50
  let (d3, rng) := rng.next
  ({ wouldHit, hitPercentage, stumpHit,
     umpiresCall := if isUmpiresCall then .UMPIRES_CALL else .CLEAR,
     marginOfError := 1 + d3 * 3 }, rng)

/-- `createAnalysisSteps` (lines 505-513). -/
def createAnalysisSteps : List AnalysisStep :=
  [{ id := "preprocessing", name := "Frame Preprocessing",
     description := "Extracting and normalizing video frames", status := .pending },
   { id := "ball-detection", name := "Ball Detection",
     description := "Identifying cricket ball position in each frame", status := .pending },
   { id := "leg-detection", name := "Leg Detection",
     description := "Detecting batsman leg position and bounding box", status := .pending },
   { id := "impact-detection", name := "Impact Analysis",
     description := "Determining ball-leg contact point", status := .pending },
   { id := "bounce-detection", name := "Bounce Detection",
     description := "Identifying pitch bounce location", status := .pending },
   { id := "trajectory", name := "Trajectory Calculation",
     description := "Computing ball path and extrapolation", status := .pending },
   { id := "wicket-prediction", name := "Wicket Hit Prediction",
     description := "Predicting if ball would hit stumps", status := .pending }]

/-- The four key-frame asset imports (lines 306-309), modelled by their
file names (the bundler turns them into URLs). -/
def releaseFrameImg : String := "release-frame.jpg"

def bounceFrameImg : String := "bounce-frame.jpg"

def impactFrameImg : String := "impact-frame.jpg"

def wicketFrameImg : String := "wicket-frame.jpg"

/-- `generateMockKeyFrames` (lines 515-550): two draws per frame, in
source order. -/
def generateMockKeyFrames (rng : SeededRandom) : List KeyFrame × SeededRandom :=
  let (d1, rng) := rng.next
  let (d2, rng) := rng.next
  let (d3, rng) := rng.next
  let (d4, rng) := rng.next
  let (d5, rng) := rng.next
  let (d6, rng) := rng.next
  let (d7, rng) := rng.next
  let (d8, rng) := rng.next
  ([{ type := .release, frameNumber := 5 + (⌊d1 * 10⌋ : ℤ),
      timestamp := 2 / 10 + d2 * (3 / 10), imageUrl := releaseFrameImg,
      label := "Ball Release",
      description := "The moment the bowler releases the ball" },
    { type := .bounce, frameNumber := 25 + (⌊d3 * 15⌋ : ℤ),
      timestamp := 8 / 10 + d4 * (4 / 10), imageUrl := bounceFrameImg,
      label := "Ball Pitching",
      description := "Ball pitches inline, good length" },
    { type := .impact, frameNumber := 45 + (⌊d5 * 20⌋ : ℤ),
      timestamp := 15 / 10 + d6 * (5 / 10), imageUrl := impactFrameImg,
      label := "Ball Impact",
      description := "Impact inline, middle height" },
    { type := .wicket, frameNumber := 60 + (⌊d7 * 25⌋ : ℤ),
      timestamp := 2 + d8 * (6 / 10), imageUrl := wicketFrameImg,
      label := "Wicket Projection",
      description := "Ball hitting middle stump (85% confidence)" }], rng)

/-- `videoName.replace(/\s/g, '_')` (line 581): every whitespace
character becomes an underscore. -/
def underscoreWhitespace (s : String) : String :=
  s.map fun c => if c.isWhitespace then '_' else c

/-- `generateAnalysisResult` (lines 552-603), the scenario synthesizer.
`now` is the millisecond clock reading taken by `new Date()` at line 595.

Draws, in source order: decision, confidence, the four criteria (the
`wouldHitWickets` ternary consumes exactly one draw in either branch,
modelled by drawing first and branching on the threshold), ball metrics,
pitch analysis, impact analysis, wicket prediction, trajectory, impact
point, bounce point, predicted wicket hit (only when `wouldHitWickets`),
key frames.  When `decision = OUT` all four criteria are overwritten to
`true` after the draws are consumed (lines 565-570). -/
def generateAnalysisResult (videoName : String) (seed : ℤ)
    (settings : AnalysisSettings) (now : ℤ) : AnalysisResult :=
  let rng : SeededRandom := ⟨seed⟩
  let (d1, rng) := rng.next
  let decision := if d1 > 45 / 100 then Decision.OUT else Decision.NOT_OUT
  let (d2, rng) := rng.next
  let confidence := 65 + d2 * 30
  let (d3, rng) := rng.next
  let (d4, rng) := rng.next
  let (d5, rng) := rng.next
  let (d6, rng) := rng.next
  let criteria0 : LBWCriteria :=
    { pitchedInLine := d3 > 3 / 10, impactInLine := d4 > 35 / 100,
      legBeforeBat := d5 > 25 / 100,
      wouldHitWickets :=
        if decision = Decision.OUT then (d6 > 2 / 10 : Bool) else (d6 > 7 / 10 : Bool) }
  let criteria : LBWCriteria :=
    if decision = Decision.OUT then ⟨true, true, true, true⟩ else criteria0
  let (ballMetrics, rng) := generateBallMetrics rng settings
  let (pitchAnalysis, rng) := generatePitchAnalysis criteria.pitchedInLine rng settings
  let (impactAnalysis, rng) := generateImpactAnalysis criteria.impactInLine rng settings
  let (wicketPrediction, rng) := generateWicketPrediction criteria.wouldHitWickets rng
  let isUmpiresCall :=
    impactAnalysis.umpiresCall = UmpiresCall.UMPIRES_CALL ∨
      wicketPrediction.umpiresCall = UmpiresCall.UMPIRES_CALL
  let (trajectory, rng) := generateTrajectory rng settings
  let (d7, rng) := rng.next
  let impactPoint : Position := ⟨230 + d7 * 20, 50⟩
  let (d8, rng) := rng.next
  let bouncePoint : Position := ⟨130 + d8 * 40, 50⟩
  let (predictedWicketHit, rng) :=
    if criteria.wouldHitWickets then
      let (d, r) := rng.next
      ((some (⟨300, 48 + d * 4⟩ : Position) : Option Position), r)
    else (none, rng)
  let (keyFrames, _rng) := generateMockKeyFrames rng
  { id := "analysis-" ++ toString seed ++ "-" ++ underscoreWhitespace videoName,
    videoId := "video-" ++ toString seed,
    videoName, videoThumbnail := "/placeholder.svg", videoUrl := none,
    decision, confidence, criteria,
    steps := createAnalysisSteps.map fun s => { s with status := .completed },
    trajectory, impactPoint, bouncePoint, predictedWicketHit,
    createdAt := now,
    ballMetrics := some ballMetrics, pitchAnalysis := some pitchAnalysis,
    impactAnalysis := some impactAnalysis,
    wicketPrediction := some wicketPrediction,
    isUmpiresCall := some (isUmpiresCall : Bool),
    keyFrames := some keyFrames }

/-! ## Backend response parsing (`parseAnalysisResult`, lines 711-739) -/

/-- The `criteria` sub-object of a backend payload.  Each flag is the
value produced by the source's `pitched_in_line ?? pitchedInLine`
double lookup (`none` = both spellings absent). -/
structure CriteriaPayload where
  pitchedInLine : Option Bool := none
  impactInLine : Option Bool := none
  legBeforeBat : Option Bool := none
  wouldHitWickets : Option Bool := none
deriving DecidableEq, Repr

/-- A backend result payload.  The source reads every field through a
snake-case/camelCase double lookup (`result.video_id || result.videoId`);
the model carries one optional value per logical field — the value that
lookup resolves to (`none` = absent/nullish; for `confidence`, a value
that `Number(...)` coerces to `NaN` is also `none`, since `NaN || 0`
falls through to `0` exactly like an absent field). -/
structure ApiResultPayload where
  id : Option String := none
  videoId : Option String := none
  videoName : Option String := none
  videoThumbnail : Option String := none
  decision : Option Decision := none
  confidence : Option ℚ := none
  criteria : Option CriteriaPayload := none
  steps : Option (List AnalysisStep) := none
  trajectory : Option (List TrajectoryPoint) := none
  impactPoint : Option Position := none
  bouncePoint : Option Position := none
  predictedWicketHit : Option Position := none
  createdAt : Option ℤ := none
  ballMetrics : Option BallMetrics := none
  pitchAnalysis : Option PitchAnalysis := none
  impactAnalysis : Option ImpactAnalysis := none
  wicketPrediction : Option WicketPrediction := none
  isUmpiresCall : Option Bool := none
deriving DecidableEq, Repr

/-- `parseAnalysisResult` (lines 711-739).  `now` models the `Date.now()`
fallback inside the `createdAt` conversion.  Note that `confidence` is
`Number(result.confidence) || 0`: defaulted when absent/NaN/zero but
**not** clamped to any range. -/
def parseAnalysisResult (p : ApiResultPayload) (now : ℤ) : AnalysisResult :=
  { id := p.id.getD "",
    videoId := p.videoId.getD "",
    videoName := p.videoName.getD "",
    videoThumbnail := p.videoThumbnail.getD "/placeholder.svg",
    videoUrl := none,
    decision := p.decision.getD .NOT_OUT,
    confidence := match p.confidence with
      | some v => if v = 0 then 0 else v
      | none => 0,
    criteria :=
      { pitchedInLine := ((p.criteria.bind (·.pitchedInLine)).getD false),
        impactInLine := ((p.criteria.bind (·.impactInLine)).getD false),
        legBeforeBat := ((p.criteria.bind (·.legBeforeBat)).getD false),
        wouldHitWickets := ((p.criteria.bind (·.wouldHitWickets)).getD false) },
    steps := p.steps.getD (createAnalysisSteps.map fun s => { s with status := .completed }),
    trajectory := p.trajectory.getD [],
    impactPoint := p.impactPoint.getD ⟨0, 0⟩,
    bouncePoint := p.bouncePoint.getD ⟨0, 0⟩,
    predictedWicketHit := p.predictedWicketHit,
    createdAt := p.createdAt.getD now,
    ballMetrics := p.ballMetrics,
    pitchAnalysis := p.pitchAnalysis,
    impactAnalysis := p.impactAnalysis,
    wicketPrediction := p.wicketPrediction,
    isUmpiresCall := some (p.isUmpiresCall.getD false),
    keyFrames := none }

/-! ## Streaming event client (`uploadToBackend`, lines 650-694)

The event-stream reading loop:
```ts
buffer += decoder.decode(value, { stream: true });
const lines = buffer.split('\n\n');
buffer = lines.pop() || '';
for (const line of lines) {
  if (line.startsWith('data: ')) {
    const data = JSON.parse(line.slice(6));
    if (data.type === 'step') { onStepUpdate(data.step); }
    else if (data.type === 'result') { resolve(parseAnalysisResult(data.result)); return; }
    else if (data.type === 'error') { reject(new Error(data.message)); return; }
  }
}
```
Buffers are modelled as `List Char` (the text after UTF-8 decoding), a
chunking of the payload as a list of such lists, and `JSON.parse` plus
the `type` dispatch of one frame body as an abstract `decode` function —
the theorems hold for every such function. -/

/-- Greedy left-to-right split on the two-character delimiter `"\n\n"`,
as `String.prototype.split('\n\n')` performs it (non-overlapping,
scanning from the left). -/
def splitNN : List Char → List (List Char)
  | [] => [[]]
  | [c] => [[c]]
  | c1 :: c2 :: rest =>
    if c1 = '\n' ∧ c2 = '\n' then [] :: splitNN rest
    else
      match splitNN (c2 :: rest) with
      | [] => [[c1]]
      | hd :: t => (c1 :: hd) :: t

/-- Decoded content of one complete frame body (after `"data: "`), i.e.
the result of `JSON.parse` + the `type` discriminator. -/
inductive FrameMsg where
  /-- `{type:'step', step}`: dispatched to `onStepUpdate`. -/
  | step (s : AnalysisStep)
  /-- `{type:'result', result}`: resolves the call. -/
  | result (r : ApiResultPayload)
  /-- `{type:'error', message}`: rejects the call. -/
  | error (m : String)
  /-- Valid JSON without a recognised `type`: ignored, reading continues. -/
  | other
  /-- `JSON.parse` throws: the surrounding `try/catch` rejects the call. -/
  | malformed
deriving DecidableEq

/-- Final disposition of the streaming promise. -/
inductive SSEOutcome where
  | resolved (events : List AnalysisStep) (r : AnalysisResult)
  | rejected (events : List AnalysisStep) (msg : String)
deriving DecidableEq

/-- Intermediate state while processing the complete frames of one read:
either still going (events dispatched so far) or already settled. -/
inductive Mid where
  | go (events : List AnalysisStep)
  | halt (o : SSEOutcome)
deriving DecidableEq

/-- State of the reading loop between reads. -/
inductive LoopState where
  /-- Still reading: events dispatched so far and the kept partial-frame
  buffer (`lines.pop() || ''`). -/
  | reading (events : List AnalysisStep) (buffer : List Char)
  /-- `resolve`/`reject` has run; later chunks are never read. -/
  | finished (o : SSEOutcome)
deriving DecidableEq

/-- Process one complete frame (the body of the `for` loop above). -/
def procFrame (decode : List Char → FrameMsg) (now : ℤ) (m : Mid)
    (line : List Char) : Mid :=
  match m with
  | .halt o => .halt o
  | .go evts =>
    if "data: ".data.isPrefixOf line then
      match decode (line.drop 6) with
      | .step s => .go (evts ++ [s])
      | .result r => .halt (.resolved evts (parseAnalysisResult r now))
      | .error msg => .halt (.rejected evts msg)
      | .other => .go evts
      | .malformed => .halt (.rejected evts "SyntaxError")
    else .go evts

/-- Feed one decoded chunk to the loop (one iteration of the
`while (true)` read loop). -/
def feedChunk (decode : List Char → FrameMsg) (now : ℤ) (st : LoopState)
    (chunk : List Char) : LoopState :=
  match st with
  | .finished o => .finished o
  | .reading evts buf =>
    let parts := splitNN (buf ++ chunk)
    match parts.dropLast.foldl (procFrame decode now) (.go evts) with
    | .go e => .reading e (parts.getLastD [])
    | .halt o => .finished o

/-- Run the reading loop over a chunked body, from the initial empty
buffer. -/
def runSSE (decode : List Char → FrameMsg) (now : ℤ)
    (chunks : List (List Char)) : LoopState :=
  chunks.foldl (feedChunk decode now) (.reading [] [])

/-! ### Chunking invariance of the frame-reassembly loop -/

lemma getLastD_append_of_ne_nil {α : Type} (l₁ l₂ : List α) (h : l₂ ≠ []) (d : α) :
    (l₁ ++ l₂).getLastD d = l₂.getLastD d := by
  simp [List.getLastD_eq_getLast?, List.getLast?_append_of_ne_nil _ h]

lemma getLastD_cons_of_ne_nil {α : Type} {x : α} {l : List α} (h : l ≠ []) (d : α) :
    (x :: l).getLastD d = l.getLastD d := by
  simpa using getLastD_append_of_ne_nil [x] l h d

lemma splitNN_ne_nil : ∀ l : List Char, splitNN l ≠ []
  | [] => by simp [splitNN]
  | [c] => by simp [splitNN]
  | c1 :: c2 :: rest => by
    rw [splitNN]
    split
    · exact List.cons_ne_nil _ _
    · split <;> exact List.cons_ne_nil _ _

/-- If a split of a nonempty list produces a single part, that part
starts with the head character. -/
lemma splitNN_single_shape : ∀ (c : Char) (r : List Char) (hd : List Char),
    splitNN (c :: r) = [hd] → ∃ tl, hd = c :: tl := by
  intro c r hd h
  match r with
  | [] =>
    rw [splitNN] at h
    simp at h
    exact ⟨[], h.symm⟩
  | c3 :: r' =>
    rw [splitNN] at h
    split at h
    · cases hsp : splitNN r' with
      | nil => exact absurd hsp (splitNN_ne_nil r')
      | cons a t =>
        rw [hsp] at h
        simp at h
    · cases hsp : splitNN (c3 :: r') with
      | nil => exact absurd hsp (splitNN_ne_nil _)
      | cons hd2 t2 =>
        rw [hsp] at h
        simp at h
        exact ⟨hd2, h.1.symm⟩

/-- Splitting distributes over concatenation: the complete parts found in
`a` are unchanged, and the last (possibly partial) part of `a` merges
with `b`.  This is the heart of the chunk-boundary safety argument. -/
theorem splitNN_append : ∀ (a b : List Char),
    splitNN (a ++ b) = (splitNN a).dropLast ++
      splitNN ((splitNN a).getLastD [] ++ b)
  | [], b => by simp [splitNN]
  | [c], b => by simp [splitNN]
  | c1 :: c2 :: rest, b => by
    by_cases hnn : c1 = '\n' ∧ c2 = '\n'
    · have hL : splitNN ((c1 :: c2 :: rest) ++ b) = [] :: splitNN (rest ++ b) := by
        show splitNN (c1 :: c2 :: (rest ++ b)) = _
        rw [splitNN, if_pos hnn]
      have hR : splitNN (c1 :: c2 :: rest) = [] :: splitNN rest := by
        rw [splitNN, if_pos hnn]
      have hne := splitNN_ne_nil rest
      rw [hL, hR, splitNN_append rest b,
        List.dropLast_cons_of_ne_nil hne, getLastD_cons_of_ne_nil hne]
      simp
    · have hL0 : splitNN ((c1 :: c2 :: rest) ++ b) =
          match splitNN (c2 :: (rest ++ b)) with
          | [] => [[c1]]
          | hd :: t => (c1 :: hd) :: t := by
        show splitNN (c1 :: c2 :: (rest ++ b)) = _
        rw [splitNN, if_neg hnn]
      have hR0 : splitNN (c1 :: c2 :: rest) =
          match splitNN (c2 :: rest) with
          | [] => [[c1]]
          | hd :: t => (c1 :: hd) :: t := by
        rw [splitNN, if_neg hnn]
      have hIH : splitNN ((c2 :: rest) ++ b) =
          (splitNN (c2 :: rest)).dropLast ++
            splitNN ((splitNN (c2 :: rest)).getLastD [] ++ b) :=
        splitNN_append (c2 :: rest) b
      obtain ⟨hd, t, hsp⟩ : ∃ hd t, splitNN (c2 :: rest) = hd :: t := by
        cases h : splitNN (c2 :: rest) with
        | nil => exact absurd h (splitNN_ne_nil _)
        | cons hd t => exact ⟨hd, t, rfl⟩
      rw [hsp] at hR0 hIH
      cases t with
      | nil =>
        obtain ⟨tl, rfl⟩ := splitNN_single_shape c2 rest hd hsp
        have hg : ([c2 :: tl] : List (List Char)).getLastD [] = c2 :: tl := by
          simp [List.getLastD_eq_getLast?]
        simp only [List.dropLast_single, List.nil_append, hg] at hIH
        have hR1 : splitNN (c1 :: c2 :: rest) = [c1 :: c2 :: tl] := by rw [hR0]
        have hg2 : ([c1 :: c2 :: tl] : List (List Char)).getLastD [] =
            c1 :: c2 :: tl := by
          simp [List.getLastD_eq_getLast?]
        rw [hR1]
        simp only [List.dropLast_single, List.nil_append, hg2]
        simp only [List.cons_append] at hIH ⊢
        conv_lhs => rw [splitNN, if_neg hnn]
        conv_rhs => rw [splitNN, if_neg hnn]
        rw [hIH]
      | cons t1 t2 =>
        have hne : (t1 :: t2 : List (List Char)) ≠ [] := List.cons_ne_nil _ _
        rw [List.dropLast_cons_of_ne_nil hne, getLastD_cons_of_ne_nil hne] at hIH
        simp only [List.cons_append] at hIH
        have hR1 : splitNN (c1 :: c2 :: rest) = (c1 :: hd) :: t1 :: t2 := by
          rw [hR0]
        rw [hR1, hL0]
        rw [hIH, List.dropLast_cons_of_ne_nil hne, getLastD_cons_of_ne_nil hne]
        simp [List.cons_append]

lemma foldl_procFrame_halt (decode : List Char → FrameMsg) (now : ℤ)
    (o : SSEOutcome) :
    ∀ frames : List (List Char),
      frames.foldl (procFrame decode now) (.halt o) = .halt o
  | [] => rfl
  | f :: fs => by
    rw [List.foldl_cons]
    show fs.foldl (procFrame decode now) (.halt o) = .halt o
    exact foldl_procFrame_halt decode now o fs

/-- Unfolding equation for `feedChunk` on an active state. -/
lemma feedChunk_reading (decode : List Char → FrameMsg) (now : ℤ)
    (evts : List AnalysisStep) (buf chunk : List Char) :
    feedChunk decode now (.reading evts buf) chunk =
      match (splitNN (buf ++ chunk)).dropLast.foldl (procFrame decode now)
          (.go evts) with
      | .go e => .reading e ((splitNN (buf ++ chunk)).getLastD [])
      | .halt o => .finished o := rfl

/-- Feeding two chunks in succession is the same as feeding their
concatenation: the kept partial-frame buffer makes chunk boundaries
invisible. -/
lemma feedChunk_append (decode : List Char → FrameMsg) (now : ℤ)
    (st : LoopState) (a b : List Char) :
    feedChunk decode now (feedChunk decode now st a) b =
      feedChunk decode now st (a ++ b) := by
  cases st with
  | finished o => rfl
  | reading evts buf =>
    rw [feedChunk_reading, feedChunk_reading]
    cases hM : (splitNN (buf ++ a)).dropLast.foldl (procFrame decode now)
        (Mid.go evts) with
    | halt o =>
      rw [show buf ++ (a ++ b) = (buf ++ a) ++ b from (List.append_assoc _ _ _).symm,
        splitNN_append (buf ++ a) b,
        List.dropLast_append_of_ne_nil _ (splitNN_ne_nil _),
        List.foldl_append, hM, foldl_procFrame_halt]
      rfl
    | go e =>
      rw [show buf ++ (a ++ b) = (buf ++ a) ++ b from (List.append_assoc _ _ _).symm,
        splitNN_append (buf ++ a) b,
        List.dropLast_append_of_ne_nil _ (splitNN_ne_nil _),
        List.foldl_append, hM,
        getLastD_append_of_ne_nil _ _ (splitNN_ne_nil _),
        feedChunk_reading]

lemma foldl_feedChunk_eq (decode : List Char → FrameMsg) (now : ℤ) :
    ∀ (chunks : List (List Char)) (st : LoopState) (c : List Char),
      chunks.foldl (feedChunk decode now) (feedChunk decode now st c) =
        feedChunk decode now st (c ++ chunks.flatten)
  | [], st, c => by simp
  | c2 :: cs, st, c => by
    rw [List.foldl_cons, foldl_feedChunk_eq decode now cs _ c2,
      feedChunk_append, List.flatten_cons]

/-- Running the loop over any chunk list is running it over the
concatenated payload. -/
lemma runSSE_eq_flatten (decode : List Char → FrameMsg) (now : ℤ)
    (chunks : List (List Char)) :
    runSSE decode now chunks =
      feedChunk decode now (.reading [] []) chunks.flatten := by
  cases chunks with
  | nil => rfl
  | cons c cs =>
    rw [runSSE, List.foldl_cons, foldl_feedChunk_eq, List.flatten_cons]

/-! ## Content fingerprinting (`generateFileHash`, lines 333-379) -/

/-- An uploaded `File`: name, content bytes, `lastModified` stamp, and
whether reading its content (`chunk.arrayBuffer()`) fails with an I/O
error (modelled as failing at the first attempted chunk read). -/
structure FileModel where
  name : String
  bytes : List ℕ
  lastModified : ℤ
  readFails : Bool := false

/-- Everything observable about one `generateFileHash` call: the
returned seed, the sequence of `onProgress` arguments, and whether the
metadata-hash fallback (the `catch` branch) ran. -/
structure HashOutcome where
  seed : ℕ
  progress : List ℚ
  usedFallback : Bool
deriving DecidableEq, Repr

/-- JavaScript `ToInt32`: reduce an integer into `[-2^31, 2^31)`. -/
def toInt32 (x : ℤ) : ℤ := (x + 2 ^ 31) % 2 ^ 32 - 2 ^ 31

/-- The fallback polynomial string hash (lines 371-375):
`hash = ((hash << 5) - hash) + charCode; hash = hash & hash` — the
shift wraps as an int32 and the final `& hash` is `ToInt32`. -/
def jsStringHash (s : String) : ℤ :=
  s.data.foldl (fun h c => toInt32 (toInt32 (h * 32) - h + c.toNat)) 0

/-- One chunk of the FNV-style content fold (lines 352-356): sample
bytes at stride `max(1, ⌊len/1000⌋)` and fold each into the running
32-bit accumulator with `hash ^= byte; hash = Math.imul(hash, 16777619)`
(all arithmetic in the low 32 bits). -/
def fnvFoldChunk (h : ℕ) (chunk : List ℕ) : ℕ :=
  let sampleRate := max 1 (chunk.length / 1000)
  let samples := (chunk.length + sampleRate - 1) / sampleRate
  (List.range samples).foldl
    (fun h i => ((h ^^^ chunk.getD (i * sampleRate) 0) * 16777619) % 2 ^ 32) h

/-- `generateFileHash` (lines 333-379).  The content path reads 1 MiB
chunks, reporting `min(((i+1)/total)·100, 99)` after each and a final
`100`, and returns `Math.abs(hash >>> 0)` (`hash >>> 0` is already the
non-negative low-32-bit value, so `Math.abs` is the identity there).
When reading fails the `catch` branch reports `100` once and hashes
`"{name}-{size}-{lastModified}"` instead, returning `Math.abs(hash)`.
A zero-byte file has zero chunks: the loop body never runs, so no read
can fail and the content path is taken unconditionally. -/
def generateFileHash (file : FileModel) : HashOutcome :=
  let chunkSize := 1024 * 1024
  let size := file.bytes.length
  let totalChunks := (size + chunkSize - 1) / chunkSize
  if file.readFails ∧ totalChunks ≠ 0 then
    { seed := (jsStringHash
        (file.name ++ "-" ++ toString size ++ "-" ++ toString file.lastModified)).natAbs,
      progress := [100],
      usedFallback := true }
  else
    let chunks := (List.range totalChunks).map fun i =>
      (file.bytes.drop (i * chunkSize)).take chunkSize
    let h := chunks.foldl fnvFoldChunk 2166136261
    let h := ((h ^^^ size % 2 ^ 32) * 16777619) % 2 ^ 32
    { seed := h,
      progress := ((List.range totalChunks).map fun i =>
        min (((i + 1 : ℚ) / totalChunks) * 100) 99) ++ [100],
      usedFallback := false }

/-! ## Durable store (`analysisDbService.ts`) and the analyze/persist flow -/

/-- Behaviour injected for the Supabase client: whether a user is signed
in, and which failure the durable store exhibits. -/
structure DbBehavior where
  userAuthenticated : Bool
  authThrows : Bool := false
  saveThrows : Bool := false
  saveErrors : Bool := false

inductive DbErr where
  | raised (msg : String)
deriving DecidableEq, Repr

/-- The body of `saveAnalysisToDb`'s `try` block (analysisDbService.ts
lines 52-88): resolve `false` when no user is signed in or when the
upsert reports an error object, `true` on success; an exception from the
client propagates out of the `try` block. -/
def dbSaveAttempt (b : DbBehavior) : Except DbErr Bool :=
  if b.authThrows then .error (.raised "auth")
  else if !b.userAuthenticated then .ok false
  else if b.saveThrows then .error (.raised "save")
  else if b.saveErrors then .ok false
  else .ok true

/-- `saveAnalysisToDb` (lines 51-93): the whole body sits in
`try/catch`, so every raised durable-store error is caught, logged and
turned into the return value `false` — the function itself never
throws. -/
def saveAnalysisToDb (b : DbBehavior) (_result : AnalysisResult) : Bool :=
  match dbSaveAttempt b with
  | .ok v => v
  | .error _ => false

/-- `isUserAuthenticated` (lines 234-237): not wrapped in `try/catch`,
so a throwing client propagates. -/
def isUserAuthenticated (b : DbBehavior) : Except DbErr Bool :=
  if b.authThrows then .error (.raised "auth") else .ok b.userAuthenticated

/-- The real-API branch of `analyzeVideo` (lines 757-765): forward the
upload outcome; on success `await saveAnalysisToDb(result)` — which
cannot throw (the catch lives inside it) — then return the report.
The error type `String` carries upload/network failures only. -/
def analyzeVideoReal (b : DbBehavior) (upload : Except String AnalysisResult) :
    Except String AnalysisResult :=
  match upload with
  | .error e => .error e
  | .ok result =>
    let _saved := saveAnalysisToDb b result
    .ok result

/-- The completed pipeline steps as the mock flow leaves them
(lines 787-794): each step completed with
`data = { processed: true, timestamp: Date.now() }`. -/
def mockCompletedSteps (now : ℤ) : List AnalysisStep :=
  createAnalysisSteps.map fun s =>
    { s with status := .completed, data := some (true, now) }

/-- The report the mock branch of `analyzeVideo` produces, before any
persistence (lines 769-798): hash the file, return a cached analysis if
`storedAnalyses` already holds the id, else synthesize a new one
(overwriting its steps with the locally completed list) and prepend it
to `storedAnalyses`.  Returns the report and the updated in-memory
log. -/
def produceMockReport (file : FileModel) (settings : AnalysisSettings)
    (stored : List AnalysisResult) (now : ℤ) :
    AnalysisResult × List AnalysisResult :=
  let seed := (generateFileHash file).seed
  let targetId := "analysis-" ++ toString (seed : ℤ) ++ "-" ++
    underscoreWhitespace file.name
  match stored.find? (fun a => a.id == targetId) with
  | some existing => (existing, stored)
  | none =>
    let result := { generateAnalysisResult file.name (seed : ℤ) settings now with
      steps := mockCompletedSteps now }
    (result, result :: stored)

/-- The persistence attempt of the mock branch (lines 800-808), the body
of its `try` block: check authentication (which may throw), and save if
signed in (`saveAnalysisToDb` itself never throws). -/
def attemptPersist (b : DbBehavior) (result : AnalysisResult) : Except DbErr Unit :=
  match isUserAuthenticated b with
  | .error e => .error e
  | .ok true =>
    let _ := saveAnalysisToDb b result
    .ok ()
  | .ok false => .ok ()

/-- The mock branch of `analyzeVideo` (lines 768-810): produce the
report, then best-effort persistence in `try/catch` (`console.warn` on
failure), then return the report.  The cached-id path returns before
the persistence block, exactly as the source does. -/
def analyzeVideoMock (file : FileModel) (settings : AnalysisSettings)
    (stored : List AnalysisResult) (b : DbBehavior) (now : ℤ) :
    Except DbErr (AnalysisResult × List AnalysisResult) :=
  let seed := (generateFileHash file).seed
  let targetId := "analysis-" ++ toString (seed : ℤ) ++ "-" ++
    underscoreWhitespace file.name
  match stored.find? (fun a => a.id == targetId) with
  | some existing => .ok (existing, stored)
  | none =>
    let result := { generateAnalysisResult file.name (seed : ℤ) settings now with
      steps := mockCompletedSteps now }
    match attemptPersist b result with
    | .ok _ => .ok (result, result :: stored)
    | .error _ => .ok (result, result :: stored)

/-- The durable record for one analysis as `fromDbFormat` returns it
(analysisDbService.ts lines 33-46): the fields the `lbw_analyses` row
carries.  `trajectory` is always a list there (`... || []`). -/
structure DbPartial where
  id : String
  videoName : String
  decision : Decision
  confidence : ℚ
  isUmpiresCall : Bool
  impactPoint : Option Position
  predictedWicketHit : Option Position
  trajectory : List TrajectoryPoint
  createdAt : ℤ
  keyFrames : Option (List KeyFrame)
deriving DecidableEq, Repr

/-- JavaScript `x || d` for string-valued `x`: the empty string is falsy. -/
def jsOrString (x : Option String) (d : String) : String :=
  match x with
  | some v => if v = "" then d else v
  | none => d

/-- The durable-hit merge of `getAnalysisResult` (lines 826-852): with a
durable record in hand, build the returned report.  Durable fields are
copied as-is; the in-memory record (`mockAnalysis`), when found, only
supplies fields the durable schema lacks.  Objects and arrays are truthy
in JavaScript, so `mockAnalysis?.criteria || {...}` falls back exactly
when the in-memory record is absent. -/
def mergeDbResult (queryId : String) (db : DbPartial)
    (mock : Option AnalysisResult) : AnalysisResult :=
  { id := db.id,
    videoId := jsOrString (mock.map (·.videoId)) ("video-" ++ queryId),
    videoName := db.videoName,
    videoThumbnail := jsOrString (mock.map (·.videoThumbnail)) "/placeholder.svg",
    videoUrl := none,
    decision := db.decision,
    confidence := db.confidence,
    criteria := (mock.map (·.criteria)).getD
      { pitchedInLine := true, impactInLine := true, legBeforeBat := true,
        wouldHitWickets := db.decision = Decision.OUT },
    steps := (mock.map (·.steps)).getD
      (createAnalysisSteps.map fun s => { s with status := .completed }),
    trajectory := db.trajectory,
    impactPoint := db.impactPoint.getD ⟨230, 50⟩,
    bouncePoint := (mock.map (·.bouncePoint)).getD ⟨130, 50⟩,
    predictedWicketHit := db.predictedWicketHit,
    createdAt := db.createdAt,
    ballMetrics := mock.bind (·.ballMetrics),
    pitchAnalysis := mock.bind (·.pitchAnalysis),
    impactAnalysis := mock.bind (·.impactAnalysis),
    wicketPrediction := mock.bind (·.wicketPrediction),
    isUmpiresCall := some db.isUmpiresCall,
    keyFrames := db.keyFrames }

/-- The authenticated durable-hit path of `getAnalysisResult`
(lines 818-857): the in-memory candidate is
`storedAnalyses.find(a => a.id === id)`. -/
def getAnalysisResultDbHit (queryId : String) (db : DbPartial)
    (stored : List AnalysisResult) : AnalysisResult :=
  mergeDbResult queryId db (stored.find? (fun a => a.id == queryId))

/-! ## Extraction lemmas for the synthesizer -/

lemma gen_decision (name : String) (seed : ℤ) (settings : AnalysisSettings)
    (now : ℤ) :
    (generateAnalysisResult name seed settings now).decision =
      if nthDraw seed 0 > 45 / 100 then Decision.OUT else Decision.NOT_OUT := rfl

lemma gen_confidence (name : String) (seed : ℤ) (settings : AnalysisSettings)
    (now : ℤ) :
    (generateAnalysisResult name seed settings now).confidence =
      65 + nthDraw seed 1 * 30 := rfl

lemma gen_createdAt (name : String) (seed : ℤ) (settings : AnalysisSettings)
    (now : ℤ) :
    (generateAnalysisResult name seed settings now).createdAt = now := rfl

lemma gen_criteria (name : String) (seed : ℤ) (settings : AnalysisSettings)
    (now : ℤ) :
    (generateAnalysisResult name seed settings now).criteria =
      if (generateAnalysisResult name seed settings now).decision = Decision.OUT
      then ⟨true, true, true, true⟩
      else
        { pitchedInLine := nthDraw seed 2 > 3 / 10,
          impactInLine := nthDraw seed 3 > 35 / 100,
          legBeforeBat := nthDraw seed 4 > 25 / 100,
          wouldHitWickets :=
            if (generateAnalysisResult name seed settings now).decision = Decision.OUT
            then (nthDraw seed 5 > 2 / 10 : Bool)
            else (nthDraw seed 5 > 7 / 10 : Bool) } := rfl

lemma nthDraw_nonneg (seed : ℤ) (n : ℕ) : 0 ≤ nthDraw seed n := by
  unfold nthDraw
  apply div_nonneg
  · exact_mod_cast stepJS_nonneg (nthState seed n)
  · norm_num

lemma nthDraw_le_one (seed : ℤ) (n : ℕ) : nthDraw seed n ≤ 1 := by
  unfold nthDraw
  rw [div_le_one (by norm_num)]
  have h := stepJS_lt (nthState seed n)
  have : (nthState seed (n + 1) : ℤ) ≤ 2 ^ 31 - 1 := by
    show stepJS (nthState seed n) ≤ 2 ^ 31 - 1
    omega
  calc ((nthState seed (n + 1) : ℤ) : ℚ) ≤ ((2 ^ 31 - 1 : ℤ) : ℚ) := by
        exact_mod_cast this
    _ ≤ (2 : ℚ) ^ 31 - 1 := by norm_num

lemma nthState_range (seed : ℤ) (hlb : -(2 ^ 31) ≤ seed) (hub : seed < 2 ^ 31) :
    ∀ n, -(2 ^ 31) ≤ nthState seed n ∧ nthState seed n < 2 ^ 31
  | 0 => ⟨hlb, hub⟩
  | n + 1 => by
    have h0 := stepJS_nonneg (nthState seed n)
    have h1 := stepJS_lt (nthState seed n)
    exact ⟨by show -(2 ^ 31) ≤ stepJS (nthState seed n); omega,
      by show stepJS (nthState seed n) < 2 ^ 31; exact h1⟩

/-! ## Claim C1: direction of the decision threshold -/

/-- **C1, counterexample.**  The claim states the decision is `NOT_OUT`
when the first draw exceeds `0.45`.  With seed `1` the first draw is
`1103527590/(2^31-1) ≈ 0.514 > 0.45`, yet the synthesized decision is
`OUT`, not `NOT_OUT`: the source (line 555) reads
`rng.next() > 0.45 ? 'OUT' : 'NOT_OUT'`, the opposite direction. -/
theorem c1_counterexample :
    nthDraw 1 0 > 45 / 100 ∧
      (generateAnalysisResult "a.mp4" 1 DEFAULTS 0).decision ≠
        Decision.NOT_OUT := by
  have hs : nthState 1 1 = 1103527590 := by decide
  have hd : nthDraw 1 0 > 45 / 100 := by
    unfold nthDraw
    rw [hs]
    norm_num
  refine ⟨hd, ?_⟩
  rw [gen_decision, if_pos hd]
  decide

/-- **C1, amended.**  For every video name, seed, configuration and
clock reading, the synthesized decision is `OUT` exactly when the first
pseudo-random draw exceeds `0.45`, and `NOT_OUT` exactly when it is at
most `0.45` (so `OUT` carries probability `0.55` over a uniform draw). -/
theorem c1_amended_decision (name : String) (seed : ℤ)
    (settings : AnalysisSettings) (now : ℤ) :
    ((generateAnalysisResult name seed settings now).decision = Decision.OUT ↔
      nthDraw seed 0 > 45 / 100) ∧
    ((generateAnalysisResult name seed settings now).decision = Decision.NOT_OUT ↔
      nthDraw seed 0 ≤ 45 / 100) := by
  rw [gen_decision]
  by_cases h : nthDraw seed 0 > 45 / 100
  · rw [if_pos h]
    constructor
    · exact ⟨fun _ => h, fun _ => rfl⟩
    · constructor
      · intro hh
        exact absurd hh (by decide)
      · intro hle
        exact absurd hle (not_le.mpr h)
  · rw [if_neg h]
    constructor
    · constructor
      · intro hh
        exact absurd hh (by decide)
      · intro hgt
        exact absurd hgt h
    · exact ⟨fun _ => not_lt.mp h, fun _ => rfl⟩

/-- **C1, witness**: the amended statement at the concrete input
(name `"a.mp4"`, seed `1`, default configuration, clock `0`). -/
theorem c1_amended_decision_witness :
    ((generateAnalysisResult "a.mp4" 1 DEFAULTS 0).decision = Decision.OUT ↔
      nthDraw 1 0 > 45 / 100) ∧
    ((generateAnalysisResult "a.mp4" 1 DEFAULTS 0).decision = Decision.NOT_OUT ↔
      nthDraw 1 0 ≤ 45 / 100) :=
  c1_amended_decision "a.mp4" 1 DEFAULTS 0

/-! ## Claim C2: decision/criteria invariant -/

set_option maxRecDepth 4000 in
/-- **C2, counterexample.**  The claim also asserts that a `NOT_OUT`
report has at least one false criterion.  With seed `26` the first draw
is `≈0.36 ≤ 0.45` (so `NOT_OUT`), and the four criteria draws are
`≈0.85 > 0.3`, `≈0.80 > 0.35`, `≈0.28 > 0.25` and `≈0.91 > 0.7`: all
four criteria come out `true` on a `NOT_OUT` report — nothing in the
source forces a false criterion in that case. -/
theorem c2_counterexample :
    (generateAnalysisResult "a.mp4" 26 DEFAULTS 0).decision = Decision.NOT_OUT ∧
      (generateAnalysisResult "a.mp4" 26 DEFAULTS 0).criteria =
        ⟨true, true, true, true⟩ := by
  have h1 : nthState 26 1 = 774121291 := by decide
  have h3 : nthState 26 3 = 1825378624 := by decide
  have h4 : nthState 26 4 = 1712457728 := by decide
  have h5 : nthState 26 5 = 605919232 := by decide
  have h6 : nthState 26 6 = 1961486336 := by decide
  have hd1 : ¬ nthDraw 26 0 > 45 / 100 := by
    unfold nthDraw
    rw [h1]
    norm_num
  have hdec : (generateAnalysisResult "a.mp4" 26 DEFAULTS 0).decision =
      Decision.NOT_OUT := by
    rw [gen_decision, if_neg hd1]
  refine ⟨hdec, ?_⟩
  rw [gen_criteria, if_neg (by rw [hdec]; decide), if_neg (by rw [hdec]; decide)]
  have hc3 : nthDraw 26 2 > 3 / 10 := by
    unfold nthDraw
    rw [h3]
    norm_num
  have hc4 : nthDraw 26 3 > 35 / 100 := by
    unfold nthDraw
    rw [h4]
    norm_num
  have hc5 : nthDraw 26 4 > 25 / 100 := by
    unfold nthDraw
    rw [h5]
    norm_num
  have hc6 : nthDraw 26 5 > 7 / 10 := by
    unfold nthDraw
    rw [h6]
    norm_num
  simp [hc3, hc4, hc5, hc6]

/-- **C2, amended.**  If the synthesized decision is `OUT`, all four
criteria are true (the source overwrites the drawn criteria, lines
565-570).  The converse clause of the claim is dropped: a `NOT_OUT`
report keeps the four independently drawn criteria, which may all be
true (see the counterexample). -/
theorem c2_amended_out_criteria (name : String) (seed : ℤ)
    (settings : AnalysisSettings) (now : ℤ)
    (h : (generateAnalysisResult name seed settings now).decision = Decision.OUT) :
    (generateAnalysisResult name seed settings now).criteria =
      ⟨true, true, true, true⟩ := by
  rw [gen_criteria, if_pos h]

/-- **C2, witness**: at seed `1` the decision is `OUT` and the amended
theorem yields the all-true criteria. -/
theorem c2_amended_out_criteria_witness :
    (generateAnalysisResult "a.mp4" 1 DEFAULTS 0).decision = Decision.OUT ∧
      (generateAnalysisResult "a.mp4" 1 DEFAULTS 0).criteria =
        ⟨true, true, true, true⟩ := by
  have hd : (generateAnalysisResult "a.mp4" 1 DEFAULTS 0).decision =
      Decision.OUT := by
    have hs : nthState 1 1 = 1103527590 := by decide
    rw [gen_decision, if_pos (by unfold nthDraw; rw [hs]; norm_num)]
  exact ⟨hd, c2_amended_out_criteria "a.mp4" 1 DEFAULTS 0 hd⟩

/-! ## Claim C3: reproducibility of the synthesizer -/

/-- **C3, counterexample.**  `generateAnalysisResult` stamps `createdAt`
with `new Date()` (line 595), the wall clock at invocation: two calls on
identical `(videoName, seed, settings)` at clock readings `0` and `1`
differ in the `createdAt` field, so not *every* field of the two reports
is equal. -/
theorem c3_counterexample :
    generateAnalysisResult "a.mp4" 1 DEFAULTS 0 ≠
      generateAnalysisResult "a.mp4" 1 DEFAULTS 1 := by
  intro h
  have h2 := congrArg AnalysisResult.createdAt h
  rw [gen_createdAt, gen_createdAt] at h2
  exact absurd h2 (by decide)

/-- **C3, amended.**  Two invocations of the synthesizer on the same
`(videoName, seed, settings)` agree on every field except `createdAt`,
which records the wall clock of each invocation.  (In particular, two
invocations at the same instant produce fully identical reports.) -/
theorem c3_amended_determinism (name : String) (seed : ℤ)
    (settings : AnalysisSettings) (now₁ now₂ : ℤ) :
    (generateAnalysisResult name seed settings now₁).id =
        (generateAnalysisResult name seed settings now₂).id ∧
    (generateAnalysisResult name seed settings now₁).videoId =
        (generateAnalysisResult name seed settings now₂).videoId ∧
    (generateAnalysisResult name seed settings now₁).videoName =
        (generateAnalysisResult name seed settings now₂).videoName ∧
    (generateAnalysisResult name seed settings now₁).videoThumbnail =
        (generateAnalysisResult name seed settings now₂).videoThumbnail ∧
    (generateAnalysisResult name seed settings now₁).videoUrl =
        (generateAnalysisResult name seed settings now₂).videoUrl ∧
    (generateAnalysisResult name seed settings now₁).decision =
        (generateAnalysisResult name seed settings now₂).decision ∧
    (generateAnalysisResult name seed settings now₁).confidence =
        (generateAnalysisResult name seed settings now₂).confidence ∧
    (generateAnalysisResult name seed settings now₁).criteria =
        (generateAnalysisResult name seed settings now₂).criteria ∧
    (generateAnalysisResult name seed settings now₁).steps =
        (generateAnalysisResult name seed settings now₂).steps ∧
    (generateAnalysisResult name seed settings now₁).trajectory =
        (generateAnalysisResult name seed settings now₂).trajectory ∧
    (generateAnalysisResult name seed settings now₁).impactPoint =
        (generateAnalysisResult name seed settings now₂).impactPoint ∧
    (generateAnalysisResult name seed settings now₁).bouncePoint =
        (generateAnalysisResult name seed settings now₂).bouncePoint ∧
    (generateAnalysisResult name seed settings now₁).predictedWicketHit =
        (generateAnalysisResult name seed settings now₂).predictedWicketHit ∧
    (generateAnalysisResult name seed settings now₁).ballMetrics =
        (generateAnalysisResult name seed settings now₂).ballMetrics ∧
    (generateAnalysisResult name seed settings now₁).pitchAnalysis =
        (generateAnalysisResult name seed settings now₂).pitchAnalysis ∧
    (generateAnalysisResult name seed settings now₁).impactAnalysis =
        (generateAnalysisResult name seed settings now₂).impactAnalysis ∧
    (generateAnalysisResult name seed settings now₁).wicketPrediction =
        (generateAnalysisResult name seed settings now₂).wicketPrediction ∧
    (generateAnalysisResult name seed settings now₁).isUmpiresCall =
        (generateAnalysisResult name seed settings now₂).isUmpiresCall ∧
    (generateAnalysisResult name seed settings now₁).keyFrames =
        (generateAnalysisResult name seed settings now₂).keyFrames ∧
    (generateAnalysisResult name seed settings now₁).createdAt = now₁ ∧
    (generateAnalysisResult name seed settings now₂).createdAt = now₂ :=
  ⟨rfl, rfl, rfl, rfl, rfl, rfl, rfl, rfl, rfl, rfl, rfl, rfl, rfl, rfl,
   rfl, rfl, rfl, rfl, rfl, rfl, rfl⟩

/-! ## Claim C4: trajectory point count -/

/-- **C4, counterexample.**  With seed `12345` and the default
configuration the synthesized trajectory does not contain `27` points:
the bounce→impact loop (line 417, `for i = 1..10`) contributes `10`
samples, not the `11` the claim adds up. -/
theorem c4_counterexample :
    (generateAnalysisResult "match_delivery_01.mp4" 12345 DEFAULTS 0).trajectory.length
      ≠ 27 := by
  intro h
  rw [show (generateAnalysisResult "match_delivery_01.mp4" 12345 DEFAULTS
      0).trajectory.length = 26 from rfl] at h
  exact absurd h (by decide)

/-- **C4, amended.**  With seed `12345` and the default configuration
(pitch length 22, concrete surface, tennis ball), the synthesized
trajectory contains exactly `26` points: `11` release→bounce samples
(`i = 0..10`), `10` bounce→impact samples (`i = 1..10`) and `5`
impact→stumps samples (`i = 1..5`). -/
theorem c4_amended_trajectory_count :
    (generateAnalysisResult "match_delivery_01.mp4" 12345 DEFAULTS 0).trajectory.length
      = 11 + 10 + 5 := rfl

/-! ## Claim C5: chunking invariance of the event stream -/

/-- **C5.**  For every frame decoder, clock reading, and any two
chunkings of the same framed payload (including splits in the middle of
a frame or of the `"\n\n"` delimiter itself), the reading loop dispatches
the same `step` events in the same order and settles with the same
outcome — its entire final state coincides.  Frames are decoded only
once complete (`decode` is applied exclusively to the delimiter-separated
parts preceding the kept remainder), so no partial frame is ever
parsed. -/
theorem c5_stream_reassembly (decode : List Char → FrameMsg) (now : ℤ)
    (chunks₁ chunks₂ : List (List Char))
    (h : chunks₁.flatten = chunks₂.flatten) :
    runSSE decode now chunks₁ = runSSE decode now chunks₂ := by
  rw [runSSE_eq_flatten, runSSE_eq_flatten, h]

/-- **C5, witness**: the payload `"data: x\n\ndata: y"` cut mid-frame
(and mid-delimiter) into three chunks behaves like the whole payload,
for a decoder that ignores every frame. -/
theorem c5_stream_reassembly_witness :
    (["dat".data, "a: x\n\nda".data, "ta: y".data].flatten =
      ["data: x\n\ndata: y".data].flatten) ∧
    runSSE (fun _ => FrameMsg.other) 0
        ["dat".data, "a: x\n\nda".data, "ta: y".data] =
      runSSE (fun _ => FrameMsg.other) 0 ["data: x\n\ndata: y".data] :=
  ⟨by decide, c5_stream_reassembly (fun _ => FrameMsg.other) 0 _ _ (by decide)⟩

/-! ## Claim C6: durable-store save errors never fail `analyzeVideo` -/

/-- **C6.**  Whatever the durable store does — in particular when the
save raises — `analyzeVideo` still returns the produced report: in
real-API mode the raised error is caught inside `saveAnalysisToDb`
(whose `try/catch` turns it into `false`), and in mock mode the
persistence attempt additionally sits in the caller's own `try/catch`
(lines 800-808); neither mode's analyze call can fail because of the
save. -/
theorem c6_save_error_swallowed (b : DbBehavior) (r : AnalysisResult)
    (file : FileModel) (settings : AnalysisSettings)
    (stored : List AnalysisResult) (now : ℤ)
    (h : b.saveThrows = true) :
    saveAnalysisToDb b r = false ∧
    analyzeVideoReal b (.ok r) = .ok r ∧
      analyzeVideoMock file settings stored b now =
        .ok (produceMockReport file settings stored now) := by
  refine ⟨?_, rfl, ?_⟩
  · by_cases ha : b.authThrows <;> by_cases hu : b.userAuthenticated <;>
      simp [saveAnalysisToDb, dbSaveAttempt, h, ha, hu]
  · simp only [analyzeVideoMock, produceMockReport]
    split
    · rfl
    · split <;> rfl

/-- **C6, witness**: a signed-in behaviour whose save raises, a concrete
report, an empty in-memory log and a concrete file. -/
theorem c6_save_error_swallowed_witness :
    (({ userAuthenticated := true, saveThrows := true } : DbBehavior).saveThrows
        = true) ∧
    (saveAnalysisToDb { userAuthenticated := true, saveThrows := true }
        (generateAnalysisResult "a.mp4" 1 DEFAULTS 0) = false ∧
    analyzeVideoReal { userAuthenticated := true, saveThrows := true }
        (.ok (generateAnalysisResult "a.mp4" 1 DEFAULTS 0)) =
      .ok (generateAnalysisResult "a.mp4" 1 DEFAULTS 0) ∧
    analyzeVideoMock ⟨"a.mp4", [], 0, false⟩ DEFAULTS []
        { userAuthenticated := true, saveThrows := true } 0 =
      .ok (produceMockReport ⟨"a.mp4", [], 0, false⟩ DEFAULTS [] 0)) :=
  ⟨rfl, c6_save_error_swallowed { userAuthenticated := true, saveThrows := true }
    (generateAnalysisResult "a.mp4" 1 DEFAULTS 0)
    ⟨"a.mp4", [], 0, false⟩ DEFAULTS [] 0 rfl⟩

/-! ## Claim C7: confidence bounds -/

/-- **C7, counterexample.**  The response parser does not clamp:
`confidence: Number(result.confidence) || 0` (line 720) passes any
non-zero numeric value through, so a payload carrying `confidence = 150`
yields a parsed report with confidence `150 ∉ [0, 100]`. -/
theorem c7_counterexample :
    ¬ ((parseAnalysisResult { confidence := some 150 } 0).confidence ≤ 100) := by
  have h : (parseAnalysisResult { confidence := some 150 } 0).confidence = 150 := by
    show (if (150 : ℚ) = 0 then (0 : ℚ) else 150) = 150
    norm_num
  rw [h]
  norm_num

/-- **C7, amended.**  Every synthesized report has confidence in
`[0, 100]` (the value is `65 + draw·30`).  The parser, however, only
*defaults*: the parsed confidence equals the payload's numeric value
when one is present (`0` when it is absent, `NaN`, or `0`) and is not
clamped, so out-of-range payload values pass through unchanged. -/
theorem c7_amended_confidence (name : String) (seed : ℤ)
    (settings : AnalysisSettings) (now : ℤ) (p : ApiResultPayload) (pnow : ℤ) :
    (0 ≤ (generateAnalysisResult name seed settings now).confidence ∧
      (generateAnalysisResult name seed settings now).confidence ≤ 100) ∧
    (parseAnalysisResult p pnow).confidence = p.confidence.getD 0 := by
  constructor
  · rw [gen_confidence]
    have h0 := nthDraw_nonneg seed 1
    have h1 := nthDraw_le_one seed 1
    constructor
    · have h2 : 0 ≤ nthDraw seed 1 * 30 := by positivity
      linarith
    · have h2 : nthDraw seed 1 * 30 ≤ 1 * 30 :=
        mul_le_mul_of_nonneg_right h1 (by norm_num)
      linarith
  · show (match p.confidence with
      | some v => if v = 0 then (0 : ℚ) else v
      | none => 0) = _
    cases p.confidence with
    | none => rfl
    | some v =>
      by_cases hv : v = 0
      · subst hv
        simp
      · simp [hv]

/-! ## Claim C8: the seeded generator -/

set_option maxRecDepth 4000 in
/-- **C8, counterexample.**  The claimed exact recurrence fails once the
product leaves the 53-bit range: starting from seed `1`, the first state
is `1103527590` (exact), but `1103527590 * 1103515245 ≈ 1.2·10^18`
rounds in double precision, so the second state is `377401600` while the
exact recurrence demands `377401575`. -/
theorem c8_counterexample :
    nthState 1 2 ≠ (nthState 1 1 * 1103515245 + 12345) % (2 ^ 31 : ℤ) := by
  decide

/-- **C8, amended.**  For every signed-32-bit seed and every call index:
the value returned by `next()` is `state/(2^31-1)` for the updated state
and lies in `[0, 1)`; the state update evaluates
`state * 1103515245 + 12345` in IEEE-754 double precision before the
`& 0x7fffffff` masking (`stepJS`), and this coincides with the claimed
exact recurrence `(state * 1103515245 + 12345) mod 2^31` exactly while
the product stays below `2^53`, i.e. for states `≤ 8162278`. -/
theorem c8_amended_generator (seed : ℤ) (hlb : -(2 ^ 31) ≤ seed)
    (hub : seed < 2 ^ 31) (n : ℕ) :
    nthDraw seed n = ((nthState seed (n + 1) : ℤ) : ℚ) / ((2 : ℚ) ^ 31 - 1) ∧
    (0 ≤ nthDraw seed n ∧ nthDraw seed n < 1) ∧
    nthState seed (n + 1) = stepJS (nthState seed n) ∧
    (0 ≤ nthState seed n → nthState seed n ≤ 8162278 →
      nthState seed (n + 1) =
        (nthState seed n * 1103515245 + 12345) % (2 ^ 31 : ℤ)) := by
  refine ⟨rfl, ⟨nthDraw_nonneg seed n, ?_⟩, rfl, ?_⟩
  · have hrange := nthState_range seed hlb hub n
    have hne := stepJS_ne_top (nthState seed n) hrange.1 hrange.2
    have h0 := stepJS_nonneg (nthState seed n)
    have h1 := stepJS_lt (nthState seed n)
    have h0' : (0 : ℤ) ≤ nthState seed (n + 1) := by
      show (0 : ℤ) ≤ stepJS (nthState seed n)
      exact h0
    have hle : nthState seed (n + 1) ≤ 2 ^ 31 - 2 := by
      show stepJS (nthState seed n) ≤ 2 ^ 31 - 2
      omega
    exact (draw_mem_Ico h0' hle).2
  · intro h0 h1
    show stepJS (nthState seed n) = _
    exact stepJS_exact _ h0 h1

/-- **C8, witness**: the amended statement instantiated at seed `1`,
first call. -/
theorem c8_amended_generator_witness :
    (-(2 ^ 31) ≤ (1 : ℤ)) ∧ ((1 : ℤ) < 2 ^ 31) ∧
      (0 ≤ nthDraw 1 0 ∧ nthDraw 1 0 < 1) :=
  ⟨by norm_num, by norm_num,
    (c8_amended_generator 1 (by norm_num) (by norm_num) 0).2.1⟩

/-! ## Claim C9: durable-hit merge -/

/-- **C9.**  Merging a durable record with the in-memory candidate
preserves every durable field unchanged — `id`, `videoName`, `decision`,
`confidence`, `trajectory`, `predictedWicketHit`, `createdAt`,
`isUmpiresCall`, `keyFrames` — regardless of what the in-memory record
contains; the in-memory record is consulted only to backfill `criteria`,
`steps`, `ballMetrics`, `pitchAnalysis`, `impactAnalysis` and
`wicketPrediction`, with decision-consistent defaults (`criteria` all
true except `wouldHitWickets := decision = OUT`; completed steps; absent
optional analyses) when no in-memory record matches. -/
theorem c9_merge_preserves_durable (queryId : String) (db : DbPartial)
    (mock : Option AnalysisResult) :
    (mergeDbResult queryId db mock).id = db.id ∧
    (mergeDbResult queryId db mock).videoName = db.videoName ∧
    (mergeDbResult queryId db mock).decision = db.decision ∧
    (mergeDbResult queryId db mock).confidence = db.confidence ∧
    (mergeDbResult queryId db mock).trajectory = db.trajectory ∧
    (mergeDbResult queryId db mock).predictedWicketHit = db.predictedWicketHit ∧
    (mergeDbResult queryId db mock).createdAt = db.createdAt ∧
    (mergeDbResult queryId db mock).isUmpiresCall = some db.isUmpiresCall ∧
    (mergeDbResult queryId db mock).keyFrames = db.keyFrames ∧
    (mergeDbResult queryId db mock).criteria =
      (mock.map (·.criteria)).getD
        { pitchedInLine := true, impactInLine := true, legBeforeBat := true,
          wouldHitWickets := db.decision = Decision.OUT } ∧
    (mergeDbResult queryId db mock).steps =
      (mock.map (·.steps)).getD
        (createAnalysisSteps.map fun s => { s with status := .completed }) ∧
    (mergeDbResult queryId db mock).ballMetrics = mock.bind (·.ballMetrics) ∧
    (mergeDbResult queryId db mock).pitchAnalysis = mock.bind (·.pitchAnalysis) ∧
    (mergeDbResult queryId db mock).impactAnalysis = mock.bind (·.impactAnalysis) ∧
    (mergeDbResult queryId db mock).wicketPrediction = mock.bind (·.wicketPrediction) :=
  ⟨rfl, rfl, rfl, rfl, rfl, rfl, rfl, rfl, rfl, rfl, rfl, rfl, rfl, rfl, rfl⟩

/-! ## Claim C10: fingerprinting a zero-byte file -/

/-- **C10, counterexample.**  A zero-byte file has zero chunks, so the
read loop never executes and nothing can throw: the *content* path runs,
not the metadata-hash fallback the claim names. -/
theorem c10_counterexample :
    (generateFileHash ⟨"empty.mp4", [], 0, false⟩).usedFallback = false := rfl

/-- **C10, amended.**  Fingerprinting a zero-byte file never raises,
returns the integer seed `84696351` (the FNV basis XOR-folded with the
zero size and multiplied once by the FNV prime mod `2^32`), and invokes
the progress callback exactly once, with value `100` — but via the
normal content-hash path (there are no chunks to read), not the
metadata-hash fallback, regardless of whether reads would fail. -/
theorem c10_amended_zero_byte (name : String) (lastModified : ℤ)
    (readFails : Bool) :
    generateFileHash ⟨name, [], lastModified, readFails⟩ =
      { seed := 84696351, progress := [100], usedFallback := false } := by
  unfold generateFileHash
  rw [if_neg]
  · simp only [List.length_nil, HashOutcome.mk.injEq]
    norm_num [Nat.xor_zero]
  · simp only [List.length_nil]
    norm_num
